import Mathlib

/-!
Verification of the request-safety and fetch pipeline of the gemini_scraper
repository (src/app/utils.py, src/app/config.py, src/app/scraper.py,
src/app/ui.py) against its natural-language specification.

The Python code is shallowly embedded: pure functions become Lean functions,
the rate-limit ledger becomes explicit state passing, library boundaries
(DNS resolution via socket.getaddrinfo, IP classification via the ipaddress
module, the headless-browser fetch, and the Gemini provider call) become
function parameters, and Python exceptions become Except values.  Strings
are Lean Strings (Python str), integers and lengths are Nat, clock readings
are Int.
-/

namespace GeminiScraper

/-- Security-related configuration, translated from SecurityConfig in
src/app/config.py (the dataclass field defaults become defaultSecurityConfig
below). -/
structure SecurityConfig where
  blocked_ip_prefixes : List String
  blocked_hosts : List String
  allowed_schemes : List String
  max_query_length : Nat
  max_url_length : Nat
deriving DecidableEq

/-- Default values of SecurityConfig, from src/app/config.py lines 56-83. -/
def defaultSecurityConfig : SecurityConfig :=
  { blocked_ip_prefixes :=
      ["127.", "10.",
       "172.16.", "172.17.", "172.18.", "172.19.",
       "172.20.", "172.21.", "172.22.", "172.23.",
       "172.24.", "172.25.", "172.26.", "172.27.",
       "172.28.", "172.29.", "172.30.", "172.31.",
       "192.168.", "0.", "169.254.", "::1", "fc00:", "fe80:"]
    blocked_hosts := ["localhost", "internal", "intranet", "corp", "local"]
    allowed_schemes := ["http", "https"]
    max_query_length := 1000
    max_url_length := 2048 }

/-- Lowercasing per character; used where Python calls str.lower(). (Lean's
String.toLower is not kernel-reducible, so we map over the character list.) -/
def lowerStr (s : String) : String := ⟨s.data.map Char.toLower⟩

/-- Whitespace stripping at both ends; used where Python calls str.strip(). -/
def trimStr (s : String) : String :=
  ⟨((s.data.dropWhile Char.isWhitespace).reverse.dropWhile Char.isWhitespace).reverse⟩

/-- Python substring membership `sub in hay` (True for the empty substring). -/
def containsSub (hay sub : String) : Bool :=
  hay.data.tails.any (fun t => sub.data.isPrefixOf t)

/-- The three components of a parsed URL that src/app uses: parsed.scheme,
parsed.netloc and parsed.hostname (hostname is lowercased by urllib; we encode
Python's None hostname as the empty string, which the code's `or ""` and
`if not hostname` treatments collapse to anyway). -/
structure UrlParts where
  scheme : String
  netloc : String
  hostname : String
deriving DecidableEq

/-- Characters allowed in a URL scheme by urllib.parse (letters, digits,
and the characters plus, minus, dot). -/
def isSchemeChar (c : Char) : Bool := c.isAlpha || c.isDigit || c == '+' || c == '-' || c == '.'

/-- WHATWG C0-control-or-space class stripped from the start of a URL by
urllib.parse.urlsplit. -/
def isC0OrSpace (c : Char) : Bool := decide (c.toNat ≤ 32)

/-- Scheme splitting of urllib.parse.urlsplit: if the text before the first
colon is a nonempty run of scheme characters starting with an ASCII letter,
it is the (lowercased) scheme and the rest follows the colon; otherwise the
scheme is empty and the URL is unchanged. -/
def splitScheme (url : List Char) : List Char × List Char :=
  match url.findIdx? (fun c => c == ':') with
  | some i =>
    if (i != 0) && (url.headD ' ').isAlpha && (url.take i).all isSchemeChar
    then ((url.take i).map Char.toLower, url.drop (i+1))
    else ([], url)
  | none => ([], url)

/-- Netloc splitting of urllib.parse.urlsplit: if the remainder begins with
two slashes, the netloc runs up to the next slash, question mark or hash;
a netloc holding exactly one of the two square brackets raises
ValueError("Invalid IPv6 URL") in Python, modelled as the error case. -/
def splitNetloc (rest : List Char) : Except String (List Char) :=
  if rest.take 2 = ['/', '/'] then
    let nl := (rest.drop 2).takeWhile (fun c => c != '/' && c != '?' && c != '#')
    if (nl.contains '[') != (nl.contains ']') then Except.error "Invalid IPv6 URL"
    else Except.ok nl
  else Except.ok []

/-- Hostname extraction of urllib.parse (the .hostname property): take the
part after the last at-sign, then inside the first square-bracket pair if
one opens, else up to the first colon; lowercased. -/
def hostnameOfNetloc (nl : List Char) : List Char :=
  let hostinfo := (nl.reverse.takeWhile (fun c => c != '@')).reverse
  let host :=
    if hostinfo.contains '[' then
      ((hostinfo.dropWhile (fun c => c != '[')).drop 1).takeWhile (fun c => c != ']')
    else hostinfo.takeWhile (fun c => c != ':')
  host.map Char.toLower

/-- Model of urllib.parse.urlparse restricted to the fields the code reads
(scheme, netloc, hostname).  Follows CPython's urlsplit: strip leading
C0-control/space characters, delete tab, carriage-return and newline
characters, split off the scheme, then the netloc; the only modelled parse
failure is the unbalanced-square-bracket ValueError. -/
def urlparse (url : String) : Except String UrlParts :=
  let cs := (url.data.dropWhile isC0OrSpace).filter
    (fun c => c != '\t' && c != '\r' && c != '\n')
  let p := splitScheme cs
  match splitNetloc p.2 with
  | Except.error e => Except.error e
  | Except.ok nl => Except.ok ⟨⟨p.1⟩, ⟨nl⟩, ⟨hostnameOfNetloc nl⟩⟩

/-- validate_url from src/app/utils.py lines 34-69.  The Python loop over
blocked_hosts returns the same message whichever entry matches, so it is
rendered with List.any.  The except-branch around urlparse becomes the error
case of the urlparse model. -/
def validate_url (cfg : SecurityConfig) (url : String) : Bool × Option String :=
  if url = "" then (false, some "URL cannot be empty")
  else if cfg.max_url_length < url.length then
    (false, some ("URL exceeds maximum length of " ++ toString cfg.max_url_length
      ++ " characters"))
  else
    match urlparse url with
    | Except.error e => (false, some ("Invalid URL format: " ++ e))
    | Except.ok parsed =>
      if !(cfg.allowed_schemes.contains parsed.scheme) then
        (false, some ("URL scheme must be one of: "
          ++ String.intercalate ", " cfg.allowed_schemes))
      else if parsed.netloc = "" then
        (false, some "URL must include a host")
      else if cfg.blocked_hosts.any (fun b => containsSub (lowerStr parsed.hostname) b) then
        (false, some ("Access to \x27" ++ parsed.hostname ++ "\x27 is not allowed"))
      else (true, none)

/-- Modelled from the spec: the six checks of section 4.1, in the stated
order, each a pass/fail flag paired with the reason reported on failure.
Checks 4-6 are stated on the parse result; when parsing fails they receive a
dummy parse (they sit after the short-circuiting parse check, so their flags
are never consulted in that case). -/
def specChecks (cfg : SecurityConfig) (url : String) : List (Bool × String) :=
  let pr := urlparse url
  let parsed := match pr with | Except.ok p => p | Except.error _ => ⟨"", "", ""⟩
  let parseOk := match pr with | Except.ok _ => true | Except.error _ => false
  let parseMsg := match pr with
    | Except.ok _ => ""
    | Except.error e => "Invalid URL format: " ++ e
  [ (!(url == ""), "URL cannot be empty"),
    (!(decide (cfg.max_url_length < url.length)),
      "URL exceeds maximum length of " ++ toString cfg.max_url_length ++ " characters"),
    (parseOk, parseMsg),
    (cfg.allowed_schemes.contains parsed.scheme,
      "URL scheme must be one of: " ++ String.intercalate ", " cfg.allowed_schemes),
    (!(parsed.netloc == ""), "URL must include a host"),
    (!(cfg.blocked_hosts.any (fun b => containsSub (lowerStr parsed.hostname) b)),
      "Access to \x27" ++ parsed.hostname ++ "\x27 is not allowed") ]

/-- Modelled from the spec: run a list of checks in order, short-circuiting
on the first failure and reporting its reason; accept when all pass. -/
def runChecks : List (Bool × String) → Bool × Option String
  | [] => (true, none)
  | c :: rest => if c.1 then runChecks rest else (false, some c.2)

/-- Classification of one resolved address by Python's ipaddress module:
the three flags check_ssrf_protection reads.  The classifier itself is a
library boundary and enters the model as a parameter of type
String → Option IPClass, where none models the ValueError branch (the
address string is not a valid IP literal). -/
structure IPClass where
  is_private : Bool
  is_loopback : Bool
  is_reserved : Bool
deriving DecidableEq

/-- Outcome of socket.getaddrinfo(hostname, None) for one hostname, the DNS
boundary of check_ssrf_protection: the list of resolved address strings
(sockaddr[0] of each returned tuple), the socket.gaierror branch, or any
other exception escaping the call (caught by the function's outer except). -/
inductive ResolveResult where
  | ok (ips : List String)
  | gaierror (msg : String)
  | raised (msg : String)
deriving DecidableEq

/-- The per-address loop of check_ssrf_protection (src/app/utils.py lines
98-118): for each resolved address in order, first the blocked-prefix string
check (ip.startswith(prefix), modelled on character lists since Lean's
String.isPrefixOf is not kernel-reducible), then the ipaddress
classification; return on the first failing address, accept after the last. -/
def ssrfLoop (cfg : SecurityConfig) (classify : String → Option IPClass) :
    List String → Bool × Option String
  | [] => (true, none)
  | ip :: rest =>
    if cfg.blocked_ip_prefixes.any (fun p => p.data.isPrefixOf ip.data) then
      (false, some "Access to internal network addresses is not allowed")
    else
      match classify ip with
      | some c =>
        if c.is_private || c.is_loopback || c.is_reserved then
          (false, some "Access to private network addresses is not allowed")
        else ssrfLoop cfg classify rest
      | none => ssrfLoop cfg classify rest

/-- check_ssrf_protection from src/app/utils.py lines 72-122.  The whole body
sits in a try whose except returns (False, "Security check failed: ..."); the
two statements that can raise in the model are urlparse (ValueError) and a
non-gaierror exception out of getaddrinfo (ResolveResult.raised). -/
def check_ssrf_protection (resolve : String → ResolveResult)
    (classify : String → Option IPClass) (cfg : SecurityConfig) (url : String) :
    Bool × Option String :=
  match urlparse url with
  | Except.error e => (false, some ("Security check failed: " ++ e))
  | Except.ok parsed =>
    if parsed.hostname = "" then (false, some "Cannot resolve hostname from URL")
    else
      match resolve parsed.hostname with
      | ResolveResult.gaierror _ =>
        (false, some ("Cannot resolve hostname: " ++ parsed.hostname))
      | ResolveResult.raised e => (false, some ("Security check failed: " ++ e))
      | ResolveResult.ok ips => ssrfLoop cfg classify ips

/-- The verdict of the SSRF loop on a single address: none when the address
passes both the blocked-prefix check and the classification, otherwise the
rejection message of the first check it fails.  Used to state theorems about
ssrfLoop; it repeats the two per-address checks of the loop body. -/
def ipFail (cfg : SecurityConfig) (classify : String → Option IPClass)
    (ip : String) : Option String :=
  if cfg.blocked_ip_prefixes.any (fun p => p.data.isPrefixOf ip.data) then
    some "Access to internal network addresses is not allowed"
  else
    match classify ip with
    | some c =>
      if c.is_private || c.is_loopback || c.is_reserved then
        some "Access to private network addresses is not allowed"
      else none
    | none => none

/-- A classifier with every flag clear (all addresses public, none a
ValueError); used in concrete instantiations. -/
def publicClassifier : String → Option IPClass := fun _ => some ⟨false, false, false⟩

/-- One entry of the rate-limit ledger: {'last_request': ..., 'delay': ...}
from RateLimiter.__init__ in src/app/scraper.py lines 47-49.  Clock readings
and delays are modelled as Int (Python uses float seconds). -/
structure RLEntry where
  last_request : Int
  delay : Int
deriving DecidableEq

/-- The RateLimiter state: the default delay the defaultdict seeds new
domains with, and the ledger as an association list keyed by the domain
string. -/
structure RateLimiter where
  default_delay : Int
  rate_limits : List (String × RLEntry)
deriving DecidableEq

/-- Reading self.rate_limits[domain]: the stored entry, or the defaultdict
seed {'last_request': 0, 'delay': default_delay} for a domain not yet seen. -/
def RateLimiter.lookup (rl : RateLimiter) (domain : String) : RLEntry :=
  ((rl.rate_limits.find? (fun p => p.1 == domain)).map Prod.snd).getD
    ⟨0, rl.default_delay⟩

/-- Insert-or-update of one ledger entry (what mutating the defaultdict entry
amounts to). -/
def upsertEntry : List (String × RLEntry) → String → RLEntry → List (String × RLEntry)
  | [], d, e => [(d, e)]
  | p :: rest, d, e => if p.1 = d then (d, e) :: rest else p :: upsertEntry rest d e

/-- RateLimiter.wait_if_needed from src/app/scraper.py lines 51-68.  t1 is
the first time.time() reading, t2 the reading taken after the optional sleep;
both are inputs since the clock is an external boundary.  Returns the new
state and the sleep duration (0 when no wait was needed). -/
def RateLimiter.wait_if_needed (rl : RateLimiter) (domain : String)
    (t1 t2 : Int) : RateLimiter × Int :=
  let entry := rl.lookup domain
  let time_since_last := t1 - entry.last_request
  let sleep := if time_since_last < entry.delay then entry.delay - time_since_last else 0
  let updated : RLEntry := { entry with last_request := t2 }
  ({ rl with rate_limits := upsertEntry rl.rate_limits domain updated }, sleep)

/-- A node of the DOM tree BeautifulSoup(html, "html.parser") produces: a
text node (NavigableString) or an element with its tag name, attribute list
and children.  The html.parser backend lowercases tag and attribute names,
so trees are assumed to carry them lowercased.  A whole parsed document is a
List HNode (the soup's top-level children); the lenient html.parser backend
itself is the library boundary and always yields such a tree. -/
inductive HNode where
  | text (s : String)
  | elem (tag : String) (attrs : List (String × String)) (children : List HNode)

mutual

/-- All elements matching one of the given tag names, in document (pre-order)
 order, within one node: Tag.find_all(names) of bs4. -/
def findTagsNode (names : List String) : HNode → List HNode
  | HNode.text _ => []
  | HNode.elem t a cs =>
    (if names.contains t then [HNode.elem t a cs] else []) ++ findTagsList names cs

/-- All elements matching one of the given tag names across a forest, in
document order: soup.find_all(names) of bs4. -/
def findTagsList (names : List String) : List HNode → List HNode
  | [] => []
  | c :: cs => findTagsNode names c ++ findTagsList names cs

end

mutual

/-- The descendant strings of one node in document order (bs4 _all_strings). -/
def nodeStrings : HNode → List String
  | HNode.text s => [s]
  | HNode.elem _ _ cs => forestStrings cs

/-- The descendant strings of a forest in document order. -/
def forestStrings : List HNode → List String
  | [] => []
  | c :: cs => nodeStrings c ++ forestStrings cs

end

/-- Tag.get_text(strip=True) of bs4: every descendant string stripped,
empty results dropped, the rest concatenated. -/
def getTextStrip (n : HNode) : String :=
  String.join (((nodeStrings n).map trimStr).filter (fun s => s != ""))

/-- Attribute access tag.get(key) / the attrs dictionary of bs4. -/
def getAttr : HNode → String → Option String
  | HNode.text _, _ => none
  | HNode.elem _ attrs _, k => (attrs.find? (fun p => p.1 == k)).map Prod.snd

/-- soup.find(name): the first element with the given tag name in document
order (the head of find_all). -/
def findFirstTag (name : String) (soup : List HNode) : Option HNode :=
  (findTagsList [name] soup).head?

/-- soup.find("meta", attrs={"name": v}): the first meta element whose name
attribute equals v. -/
def findMetaNamed (soup : List HNode) (v : String) : Option HNode :=
  ((findTagsList ["meta"] soup).filter (fun n => getAttr n "name" == some v)).head?

/-- Tag.string of bs4: the single NavigableString child if there is exactly
one child, recursing through a single element child, else None. -/
def nodeString : HNode → Option String
  | HNode.text s => some s
  | HNode.elem _ _ [c] => nodeString c
  | HNode.elem _ _ _ => none

/-- The Scraped Document: the dictionary _parse_html returns.  The title
field is Option String because soup.title.string is None when the title
element does not hold a single string (absent title gives some ""). -/
structure ScrapedDoc where
  title : Option String
  text : String
  links : List String
  description : String
  keywords : String
  tables : List String
deriving DecidableEq

/-- WebScraper._parse_html from src/app/scraper.py lines 250-286, on the
parsed DOM.  Subscripting a found meta element that has no content attribute
raises KeyError("content") in Python — str() of which is "'content'" — so
the function is Except-valued; every other piece degrades to an empty field.
The description subscript is evaluated before the keywords subscript, as in
the Python dict literal. -/
def _parse_html (soup : List HNode) : Except String ScrapedDoc :=
  let text_elements := findTagsList ["p", "div", "span", "td", "th", "tr"] soup
  let text := String.intercalate " " (text_elements.map getTextStrip)
  let links := (findTagsList ["a"] soup).filterMap (fun a => getAttr a "href")
  let description_tag := findMetaNamed soup "description"
  let keywords_tag := findMetaNamed soup "keywords"
  let tables := (findTagsList ["table"] soup).map getTextStrip
  let title : Option String :=
    match findFirstTag "title" soup with
    | some t => nodeString t
    | none => some ""
  match description_tag with
  | some t =>
    match getAttr t "content" with
    | none => Except.error "\x27content\x27"
    | some description =>
      match keywords_tag with
      | some t2 =>
        match getAttr t2 "content" with
        | none => Except.error "\x27content\x27"
        | some keywords =>
          Except.ok ⟨title, text, links, description, keywords, tables⟩
      | none => Except.ok ⟨title, text, links, description, "", tables⟩
  | none =>
    match keywords_tag with
    | some t2 =>
      match getAttr t2 "content" with
      | none => Except.error "\x27content\x27"
      | some keywords => Except.ok ⟨title, text, links, "", keywords, tables⟩
    | none => Except.ok ⟨title, text, links, "", "", tables⟩

/-- Rendering of the title value in the analyzer context: the dictionary
_parse_html builds always carries the title key, so content.get("title",
"Unknown") returns the stored value, and a Python None renders as "None"
inside the f-string. -/
def titleStr (d : ScrapedDoc) : String :=
  match d.title with
  | some s => s
  | none => "None"

/-- The tables_text expression of ContentAnalyzer.analyze (src/app/scraper.py
lines 109-110): the space-join of the first max_tables table texts when the
table list is non-empty, else the literal "No tables found". -/
def tablesText (d : ScrapedDoc) (max_tables : Nat) : String :=
  if d.tables.isEmpty then "No tables found"
  else String.intercalate " " (d.tables.take max_tables)

/-- The context f-string of ContentAnalyzer.analyze (src/app/scraper.py lines
112-126), byte for byte: the fixed template around the title, the first
max_content_length characters of the text, the tables text, the two metadata
fields and the query, ending in the instruction sentence. -/
def buildContext (d : ScrapedDoc) (query : String)
    (max_content_length max_tables : Nat) : String :=
  "\n        Title: " ++ titleStr d
  ++ "\n        \n        Content Summary: " ++ d.text.take max_content_length
  ++ "...\n        \n        Table Data: " ++ tablesText d max_tables
  ++ "\n        \n        Metadata:\n        - Description: " ++ d.description
  ++ "\n        - Keywords: " ++ d.keywords
  ++ "\n        \n        Query: " ++ query
  ++ "\n        \n        Please provide a helpful and accurate response based on the content above.\n        "

/-- What one call to self.model.generate_content(context) produces, the
provider boundary of ContentAnalyzer.analyze: a response carrying its
prompt_feedback.block_reason (none when absent or falsy) and its text
(empty string for no usable text), or one of the exceptions the except
clauses of analyze name, or any other exception. -/
inductive ProviderOutcome where
  | ok (block_reason : Option String) (text : String)
  | blockedPrompt (msg : String)
  | stopCandidate (msg : String)
  | otherError (msg : String)
deriving DecidableEq

/-- The exceptions that can leave the try body of ContentAnalyzer.analyze:
the two genai exception types, the ContentAnalysisError the body itself
raises, and any other exception from the provider call. -/
inductive PyExc where
  | blockedPrompt (msg : String)
  | stopCandidate (msg : String)
  | contentAnalysisError (msg : String)
  | otherExc (msg : String)
deriving DecidableEq

/-- The try body of ContentAnalyzer.analyze (src/app/scraper.py lines
128-140): propagate the provider exceptions; on a response, raise
ContentAnalysisError for a truthy block_reason, then for empty text, else
return the text. -/
def analyzeTryBody : ProviderOutcome → Except PyExc String
  | ProviderOutcome.blockedPrompt m => Except.error (PyExc.blockedPrompt m)
  | ProviderOutcome.stopCandidate m => Except.error (PyExc.stopCandidate m)
  | ProviderOutcome.otherError m => Except.error (PyExc.otherExc m)
  | ProviderOutcome.ok br text =>
    match br with
    | some r => Except.error (PyExc.contentAnalysisError ("Content was blocked: " ++ r))
    | none =>
      if text = "" then
        Except.error (PyExc.contentAnalysisError "Empty response from Gemini API")
      else Except.ok text

/-- The except clauses of ContentAnalyzer.analyze (src/app/scraper.py lines
142-153).  A ContentAnalysisError raised inside the try body is neither a
BlockedPromptException nor a StopCandidateException, so it is caught by the
final `except Exception` clause and re-raised wrapped in "Failed to analyze
content: ", exactly like any other exception.  The result's error value is
the message of the ContentAnalysisError that reaches the caller. -/
def handleOutcome (outcome : ProviderOutcome) : Except String String :=
  match analyzeTryBody outcome with
  | Except.ok t => Except.ok t
  | Except.error (PyExc.blockedPrompt _) =>
    Except.error "Your query was blocked by content safety filters"
  | Except.error (PyExc.stopCandidate _) =>
    Except.error "Response generation was stopped due to content safety"
  | Except.error (PyExc.contentAnalysisError m) =>
    Except.error ("Failed to analyze content: " ++ m)
  | Except.error (PyExc.otherExc m) =>
    Except.error ("Failed to analyze content: " ++ m)

/-- ContentAnalyzer.analyze: build the context from the document and the
query, send it to the provider, and translate the outcome.  The provider is
a parameter mapping the prompt to its outcome. -/
def analyze (provider : String → ProviderOutcome) (d : ScrapedDoc) (query : String)
    (max_content_length : Nat := 2000) (max_tables : Nat := 3) :
    Except String String :=
  handleOutcome (provider (buildContext d query max_content_length max_tables))

/-- The four error kinds of the specification's analyzer contract
(section 4.5). -/
inductive ErrKind where
  | blockedSafety
  | generationStopped
  | emptyResponse
  | providerFailure
deriving DecidableEq

/-- Modelled from the spec: the kind of failure a provider outcome is,
none when the call succeeds.  A refused prompt — whether reported through
prompt_feedback.block_reason or a BlockedPromptException — is
blocked-by-safety-filter. -/
def outcomeKind : ProviderOutcome → Option ErrKind
  | ProviderOutcome.blockedPrompt _ => some ErrKind.blockedSafety
  | ProviderOutcome.stopCandidate _ => some ErrKind.generationStopped
  | ProviderOutcome.otherError _ => some ErrKind.providerFailure
  | ProviderOutcome.ok (some _) _ => some ErrKind.blockedSafety
  | ProviderOutcome.ok none t => if t = "" then some ErrKind.emptyResponse else none

/-- Scrape-pipeline failures, one constructor per exception type scrape_url
raises (URLValidationError, SSRFProtectionError, ScrapingError). -/
inductive ScrapeFailure where
  | urlValidation (msg : String)
  | ssrfProtection (msg : String)
  | scraping (msg : String)
deriving DecidableEq

/-- Observable side-effecting steps of one scrape_url call, in order: the
rate-limiter wait (which updates the ledger) and the network fetch. -/
inductive ScrapeEvent where
  | rateLimitWait (domain : String)
  | fetchPage (url : String)
deriving DecidableEq

/-- The external boundaries scrape_url consults: DNS resolution and IP
classification (for the SSRF guard) and the headless-browser page render,
which returns the parsed DOM of the final HTML or a fetch failure. -/
structure ScrapeEnv where
  resolve : String → ResolveResult
  classify : String → Option IPClass
  renderPage : String → Except String (List HNode)

/-- The domain key scrape_url hands to the rate limiter (src/app/scraper.py
line 205): urlparse(url).netloc, the raw network-location string.  The error
branch is unreachable there because validation has already parsed the URL. -/
def scrapeDomain (url : String) : String :=
  match urlparse url with
  | Except.ok p => p.netloc
  | Except.error _ => ""

/-- WebScraper.scrape_url from src/app/scraper.py lines 179-213, with the
rate-limit ledger threaded explicitly and the side-effecting steps recorded
as events: validate, SSRF-check, rate-limit wait keyed by netloc, fetch,
parse.  t1 and t2 are the two clock readings of wait_if_needed.  Returns the
result, the ledger after the call, and the event trace. -/
def scrape_url (env : ScrapeEnv) (cfg : SecurityConfig) (rl : RateLimiter)
    (t1 t2 : Int) (url : String) :
    Except ScrapeFailure ScrapedDoc × RateLimiter × List ScrapeEvent :=
  let v := validate_url cfg url
  if v.1 = false then (Except.error (ScrapeFailure.urlValidation (v.2.getD "")), rl, [])
  else
    let s := check_ssrf_protection env.resolve env.classify cfg url
    if s.1 = false then (Except.error (ScrapeFailure.ssrfProtection (s.2.getD "")), rl, [])
    else
      let domain := scrapeDomain url
      let rl2 := (rl.wait_if_needed domain t1 t2).1
      let events := [ScrapeEvent.rateLimitWait domain, ScrapeEvent.fetchPage url]
      match env.renderPage url with
      | Except.error e =>
        (Except.error (ScrapeFailure.scraping ("Failed to scrape URL: " ++ e)), rl2, events)
      | Except.ok soup =>
        match _parse_html soup with
        | Except.error e =>
          (Except.error (ScrapeFailure.scraping ("Failed to scrape URL: " ++ e)), rl2, events)
        | Except.ok doc => (Except.ok doc, rl2, events)

/-- validate_query from src/app/utils.py lines 125-141. -/
def validate_query (cfg : SecurityConfig) (query : String) : Bool × Option String :=
  if query = "" || trimStr query = "" then (false, some "Query cannot be empty")
  else if cfg.max_query_length < query.length then
    (false, some ("Query exceeds maximum length of " ++ toString cfg.max_query_length
      ++ " characters"))
  else (true, none)

/-- The session state process_query touches: the cached Scraped Document
(none before any successful scrape), the chat history as ordered
query/response turns, and whether the scraper object is initialized. -/
structure SessionState where
  content : Option ScrapedDoc
  chat_history : List (String × String)
  scraper : Bool
deriving DecidableEq

/-- process_query from src/app/ui.py lines 128-164, with the session state
threaded explicitly.  analyzeFn stands for
st.session_state.scraper.analyze_content; its error value is the message of
the ContentAnalysisError it raises.  Returns the new state and the error
message displayed, none on success.  Every branch except the success branch
returns the state unchanged. -/
def process_query (analyzeFn : ScrapedDoc → String → Except String String)
    (cfg : SecurityConfig) (st : SessionState) (query : String) :
    SessionState × Option String :=
  let v := validate_query cfg query
  if v.1 = false then (st, some (v.2.getD ""))
  else
    match st.content with
    | none => (st, some "Please scrape a URL first!")
    | some doc =>
      if st.scraper = false then
        (st, some "Scraper not initialized. Please scrape a URL first!")
      else
        match analyzeFn doc query with
        | Except.ok response =>
          ({ st with chat_history := st.chat_history ++ [(query, response)] }, none)
        | Except.error e => (st, some ("Analysis Error: " ++ e))

/-- Decoder from a surfaced ContentAnalysisError message back to the error
kind, matching the fixed message shapes analyze produces.  The blocked-by-
feedback and empty-response messages carry the provider-failure wrapping
"Failed to analyze content: " because the try body's own ContentAnalysisError
is caught by the final except clause. -/
def surfacedKind (m : String) : ErrKind :=
  if m = "Your query was blocked by content safety filters" then ErrKind.blockedSafety
  else if m = "Response generation was stopped due to content safety" then
    ErrKind.generationStopped
  else if m = "Failed to analyze content: Empty response from Gemini API" then
    ErrKind.emptyResponse
  else if "Failed to analyze content: Content was blocked: ".data.isPrefixOf m.data then
    ErrKind.blockedSafety
  else ErrKind.providerFailure

/-- The proviso under which the wrapped messages stay unambiguous: a
provider-failure cause string must not coincide with either message the try
body itself raises (otherwise its wrapping is indistinguishable from the
wrapped empty-response or blocked-by-feedback message). -/
def causeAvoidsInnerMessages : ProviderOutcome → Prop
  | ProviderOutcome.otherError m =>
    m ≠ "Empty response from Gemini API" ∧ ∀ r, m ≠ "Content was blocked: " ++ r
  | _ => True

/-- Substring occurrence: sub occurs contiguously inside hay. -/
def strHasSub (hay sub : String) : Prop :=
  ∃ pre suf : List Char, hay.data = pre ++ sub.data ++ suf

theorem strHasSub_refl (s : String) : strHasSub s s := ⟨[], [], by simp⟩

theorem strHasSub_left (x y s : String) (h : strHasSub x s) : strHasSub (x ++ y) s := by
  obtain ⟨pre, suf, hd⟩ := h
  exact ⟨pre, suf ++ y.data, by simp [String.data_append, hd]⟩

theorem strHasSub_right (x y s : String) (h : strHasSub y s) : strHasSub (x ++ y) s := by
  obtain ⟨pre, suf, hd⟩ := h
  exact ⟨x.data ++ pre, suf, by simp [String.data_append, hd]⟩

theorem isPrefixOf_append_self (l l2 : List Char) : l.isPrefixOf (l ++ l2) = true := by
  induction l with
  | nil => simp [List.isPrefixOf]
  | cons a as ih => simp [List.isPrefixOf, ih]

theorem isPrefixOf_append_cancel (p a b : List Char) :
    (p ++ a).isPrefixOf (p ++ b) = a.isPrefixOf b := by
  induction p with
  | nil => simp
  | cons c cs ih => simp [List.isPrefixOf, ih]

theorem eq_append_of_isPrefixOf (p m : String) (h : p.data.isPrefixOf m.data = true) :
    ∃ r : String, m = p ++ r := by
  rw [ List.isPrefixOf_iff_prefix] at h
  obtain ⟨r, hr⟩ := h
  exact ⟨⟨r⟩, String.ext (by rw [String.data_append]; exact hr.symm)⟩

theorem append_ne_of_not_isPrefixOf (a b other : String)
    (h : a.data.isPrefixOf other.data = false) : a ++ b ≠ other := by
  intro heq
  have h2 : a.data.isPrefixOf (a ++ b).data = true := by
    rw [String.data_append]; exact isPrefixOf_append_self _ _
  rw [heq, h] at h2
  exact Bool.noConfusion h2

theorem strAppend_cancel_left (p a b : String) (h : p ++ a = p ++ b) : a = b := by
  have hd : p.data ++ a.data = p.data ++ b.data := by
    have := congrArg String.data h
    simpa [String.data_append] using this
  exact String.ext (List.append_cancel_left hd)

theorem runChecks_true_iff (cs : List (Bool × String)) :
    (runChecks cs).1 = true ↔ cs.all (fun c => c.1) = true := by
  induction cs with
  | nil => simp [runChecks]
  | cons c rest ih => cases hc : c.1 <;> simp [runChecks, hc, ih]

/-- C5: validate_url runs the six checks of the specification in the stated
order, short-circuiting on the first failure: it equals the generic
first-failure runner applied to the six-check list, accepts exactly when all
six pass, and (being a Lean function of cfg and url alone) is a
deterministic, side-effect-free function of the URL and the policy. -/
theorem validate_url_runs_six_checks_in_order (cfg : SecurityConfig) (url : String) :
    validate_url cfg url = runChecks (specChecks cfg url) ∧
    ((validate_url cfg url).1 = true ↔
      (specChecks cfg url).all (fun c => c.1) = true) := by
  have hmain : validate_url cfg url = runChecks (specChecks cfg url) := by
    unfold validate_url specChecks
    cases hu : urlparse url with
    | error e =>
      by_cases h1 : url = "" <;> by_cases h2 : cfg.max_url_length < url.length <;>
        simp [runChecks, h1, h2, hu]
    | ok parsed =>
      by_cases h1 : url = "" <;> by_cases h2 : cfg.max_url_length < url.length <;>
        cases h3 : cfg.allowed_schemes.contains parsed.scheme <;>
        by_cases h4 : parsed.netloc = "" <;>
        cases h5 : cfg.blocked_hosts.any
          (fun b => containsSub (lowerStr parsed.hostname) b) <;>
        simp [runChecks, h1, h2, h3, h4, h5, hu]
  exact ⟨hmain, by rw [hmain]; exact runChecks_true_iff _⟩

theorem findSome?_none_iff {α β : Type} (f : α → Option β) (l : List α) :
    l.findSome? f = none ↔ ∀ x ∈ l, f x = none := by
  induction l with
  | nil => simp
  | cons a l ih => rw [List.findSome?_cons]; cases hf : f a <;> simp [hf, ih]

theorem ssrfLoop_cons (cfg : SecurityConfig) (classify : String → Option IPClass)
    (ip : String) (rest : List String) :
    ssrfLoop cfg classify (ip :: rest) =
      match ipFail cfg classify ip with
      | some m => (false, some m)
      | none => ssrfLoop cfg classify rest := by
  conv_lhs => unfold ssrfLoop
  unfold ipFail
  cases hpf : cfg.blocked_ip_prefixes.any (fun p => p.data.isPrefixOf ip.data) with
  | true => simp [hpf]
  | false =>
    cases hcl : classify ip with
    | none => simp [hpf, hcl]
    | some c =>
      cases hflag : c.is_private || c.is_loopback || c.is_reserved with
      | true => simp [hpf, hcl, hflag]
      | false => simp [hpf, hcl, hflag]

theorem ssrfLoop_eq_findSome (cfg : SecurityConfig) (classify : String → Option IPClass)
    (ips : List String) :
    ssrfLoop cfg classify ips =
      match ips.findSome? (ipFail cfg classify) with
      | some m => (false, some m)
      | none => (true, none) := by
  induction ips with
  | nil => rfl
  | cons ip rest ih =>
    rw [List.findSome?_cons, ssrfLoop_cons]
    cases hf : ipFail cfg classify ip with
    | some m => simp [hf]
    | none => simp [hf, ih]

/-- C1: when the hostname resolves to a set of addresses, check_ssrf_protection
clears the URL exactly when every resolved address passes both the
blocked-prefix check and the private/loopback/reserved classification; it
returns the rejection of the first failing address, and one failing address
vetoes the URL regardless of the others. -/
theorem ssrf_guard_checks_every_address (resolve : String → ResolveResult)
    (classify : String → Option IPClass) (cfg : SecurityConfig) (url : String)
    (p : UrlParts) (ips : List String)
    (hp : urlparse url = Except.ok p) (hh : p.hostname ≠ "")
    (hres : resolve p.hostname = ResolveResult.ok ips) :
    (check_ssrf_protection resolve classify cfg url =
      match ips.findSome? (ipFail cfg classify) with
      | some m => (false, some m)
      | none => (true, none)) ∧
    ((check_ssrf_protection resolve classify cfg url).1 = true ↔
      ∀ ip ∈ ips, ipFail cfg classify ip = none) ∧
    (∀ ip ∈ ips, ipFail cfg classify ip ≠ none →
      (check_ssrf_protection resolve classify cfg url).1 = false) := by
  have hcheck : check_ssrf_protection resolve classify cfg url = ssrfLoop cfg classify ips := by
    unfold check_ssrf_protection
    rw [hp]
    simp [hh, hres]
  rw [hcheck, ssrfLoop_eq_findSome]
  refine ⟨rfl, ?_, ?_⟩
  · cases hf : ips.findSome? (ipFail cfg classify) with
    | none => simpa using (findSome?_none_iff (ipFail cfg classify) ips).mp hf
    | some m =>
      simp only [hf]
      constructor
      · intro hfalse; exact absurd hfalse (by simp)
      · intro hall
        have : ips.findSome? (ipFail cfg classify) = none :=
          (findSome?_none_iff (ipFail cfg classify) ips).mpr hall
        rw [hf] at this; exact Option.noConfusion this
  · intro ip hip hfail
    cases hf : ips.findSome? (ipFail cfg classify) with
    | none => exact absurd ((findSome?_none_iff (ipFail cfg classify) ips).mp hf ip hip) hfail
    | some m => simp [hf]

theorem ssrf_guard_checks_every_address_witness :
    (check_ssrf_protection (fun _ => ResolveResult.ok ["93.184.216.34", "10.0.0.1"])
      publicClassifier defaultSecurityConfig "http://example.com").1 = false := by
  have h := ssrf_guard_checks_every_address
    (fun _ => ResolveResult.ok ["93.184.216.34", "10.0.0.1"]) publicClassifier
    defaultSecurityConfig "http://example.com" ⟨"http", "example.com", "example.com"⟩
    ["93.184.216.34", "10.0.0.1"] rfl (by decide) rfl
  exact h.2.2 "10.0.0.1" (by decide) (by decide)

/-- C6: a hostname whose DNS resolution fails makes check_ssrf_protection
fail closed with the distinct cannot-resolve reason (different from every
other rejection message of the guard), and the orchestrator reports it as an
SSRFProtectionError rejection of the request — not a raised error and not an
acceptance — leaving the rate-limit ledger untouched. -/
theorem ssrf_dns_failure_rejects (env : ScrapeEnv) (cfg : SecurityConfig)
    (url : String) (p : UrlParts) (m : String)
    (hp : urlparse url = Except.ok p) (hh : p.hostname ≠ "")
    (hres : env.resolve p.hostname = ResolveResult.gaierror m) :
    check_ssrf_protection env.resolve env.classify cfg url =
      (false, some ("Cannot resolve hostname: " ++ p.hostname)) ∧
    (∀ other ∈ ["Access to internal network addresses is not allowed",
        "Access to private network addresses is not allowed",
        "Cannot resolve hostname from URL"],
      "Cannot resolve hostname: " ++ p.hostname ≠ other) ∧
    ((validate_url cfg url).1 = true → ∀ rl t1 t2,
      scrape_url env cfg rl t1 t2 url =
        (Except.error (ScrapeFailure.ssrfProtection
          ("Cannot resolve hostname: " ++ p.hostname)), rl, [])) := by
  have hcheck : check_ssrf_protection env.resolve env.classify cfg url =
      (false, some ("Cannot resolve hostname: " ++ p.hostname)) := by
    unfold check_ssrf_protection
    rw [hp]
    simp [hh, hres]
  refine ⟨hcheck, ?_, ?_⟩
  · intro other hother
    fin_cases hother <;> exact append_ne_of_not_isPrefixOf _ _ _ (by decide)
  · intro hv rl t1 t2
    unfold scrape_url
    simp [hv, hcheck]

theorem ssrf_dns_failure_rejects_witness :
    check_ssrf_protection (fun _ => ResolveResult.gaierror "lookup failed")
      publicClassifier defaultSecurityConfig "http://nosuch.example" =
      (false, some ("Cannot resolve hostname: " ++ "nosuch.example")) := by
  have h := ssrf_dns_failure_rejects
    ⟨fun _ => ResolveResult.gaierror "lookup failed", publicClassifier,
      fun _ => Except.error "net"⟩
    defaultSecurityConfig "http://nosuch.example"
    ⟨"http", "nosuch.example", "nosuch.example"⟩ "lookup failed" rfl (by decide) rfl
  exact h.1

/-- C9: check_ssrf_protection is total over arbitrary URL strings and fails
closed: whenever it accepts, parsing, resolution and every per-address check
succeeded; an unparseable URL, a missing hostname, a DNS failure or any
exception escaping resolution each yield a rejection pair, never an
acceptance and never a propagated exception. -/
theorem ssrf_check_total_fail_closed (resolve : String → ResolveResult)
    (classify : String → Option IPClass) (cfg : SecurityConfig) (url : String) :
    ((check_ssrf_protection resolve classify cfg url).1 = true →
      check_ssrf_protection resolve classify cfg url = (true, none) ∧
      ∃ p ips, urlparse url = Except.ok p ∧ p.hostname ≠ "" ∧
        resolve p.hostname = ResolveResult.ok ips ∧
        ∀ ip ∈ ips, ipFail cfg classify ip = none) ∧
    (∀ e, urlparse url = Except.error e →
      check_ssrf_protection resolve classify cfg url =
        (false, some ("Security check failed: " ++ e))) ∧
    (∀ p, urlparse url = Except.ok p → p.hostname = "" →
      check_ssrf_protection resolve classify cfg url =
        (false, some "Cannot resolve hostname from URL")) ∧
    (∀ p e, urlparse url = Except.ok p → p.hostname ≠ "" →
      resolve p.hostname = ResolveResult.raised e →
      check_ssrf_protection resolve classify cfg url =
        (false, some ("Security check failed: " ++ e))) := by
  refine ⟨?_, ?_, ?_, ?_⟩
  · intro htrue
    cases hu : urlparse url with
    | error e =>
      have hc : check_ssrf_protection resolve classify cfg url =
          (false, some ("Security check failed: " ++ e)) := by
        unfold check_ssrf_protection; rw [hu]
      rw [hc] at htrue; exact absurd htrue (by simp)
    | ok p =>
      by_cases hh : p.hostname = ""
      · have hc : check_ssrf_protection resolve classify cfg url =
            (false, some "Cannot resolve hostname from URL") := by
          unfold check_ssrf_protection; rw [hu]; simp [hh]
        rw [hc] at htrue; exact absurd htrue (by simp)
      · cases hr : resolve p.hostname with
        | gaierror m =>
          have hc : check_ssrf_protection resolve classify cfg url =
              (false, some ("Cannot resolve hostname: " ++ p.hostname)) := by
            unfold check_ssrf_protection; rw [hu]; simp [hh, hr]
          rw [hc] at htrue; exact absurd htrue (by simp)
        | raised e =>
          have hc : check_ssrf_protection resolve classify cfg url =
              (false, some ("Security check failed: " ++ e)) := by
            unfold check_ssrf_protection; rw [hu]; simp [hh, hr]
          rw [hc] at htrue; exact absurd htrue (by simp)
        | ok ips =>
          have hc : check_ssrf_protection resolve classify cfg url =
              ssrfLoop cfg classify ips := by
            unfold check_ssrf_protection; rw [hu]; simp [hh, hr]
          rw [hc, ssrfLoop_eq_findSome] at htrue
          cases hf : ips.findSome? (ipFail cfg classify) with
          | some m => rw [hf] at htrue; exact absurd htrue (by simp)
          | none =>
            refine ⟨?_, p, ips, rfl, hh, hr,
              (findSome?_none_iff (ipFail cfg classify) ips).mp hf⟩
            rw [hc, ssrfLoop_eq_findSome, hf]
  · intro e he
    unfold check_ssrf_protection
    rw [he]
  · intro p hp hh
    unfold check_ssrf_protection
    rw [hp]
    simp [hh]
  · intro p e hp hh hr
    unfold check_ssrf_protection
    rw [hp]
    simp [hh, hr]

theorem ssrf_check_total_fail_closed_witness :
    check_ssrf_protection (fun _ => ResolveResult.ok ["93.184.216.34"]) publicClassifier
      defaultSecurityConfig "http://[::1" =
      (false, some ("Security check failed: " ++ "Invalid IPv6 URL")) := by
  have h := ssrf_check_total_fail_closed (fun _ => ResolveResult.ok ["93.184.216.34"])
    publicClassifier defaultSecurityConfig "http://[::1"
  exact h.2.1 "Invalid IPv6 URL" rfl

/-- C4: in every scrape attempt the rate-limiter wait runs only after the URL
cleared validation and the SSRF guard and before the network fetch: a
request rejected at validation or at SSRF checking returns with the ledger
unchanged and an empty event trace, while a request clearing both gates
produces exactly one rate-limit wait followed by the fetch, with the ledger
updated by that wait. -/
theorem rate_limit_after_gates_before_fetch (env : ScrapeEnv) (cfg : SecurityConfig)
    (rl : RateLimiter) (t1 t2 : Int) (url : String) :
    ((validate_url cfg url).1 = false →
      scrape_url env cfg rl t1 t2 url =
        (Except.error (ScrapeFailure.urlValidation ((validate_url cfg url).2.getD "")),
          rl, [])) ∧
    ((validate_url cfg url).1 = true →
      (check_ssrf_protection env.resolve env.classify cfg url).1 = false →
      scrape_url env cfg rl t1 t2 url =
        (Except.error (ScrapeFailure.ssrfProtection
          ((check_ssrf_protection env.resolve env.classify cfg url).2.getD "")), rl, [])) ∧
    ((validate_url cfg url).1 = true →
      (check_ssrf_protection env.resolve env.classify cfg url).1 = true →
      (scrape_url env cfg rl t1 t2 url).2.2 =
        [ScrapeEvent.rateLimitWait (scrapeDomain url), ScrapeEvent.fetchPage url] ∧
      (scrape_url env cfg rl t1 t2 url).2.1 =
        (rl.wait_if_needed (scrapeDomain url) t1 t2).1) := by
  refine ⟨?_, ?_, ?_⟩
  · intro hv
    unfold scrape_url
    simp [hv]
  · intro hv hs
    unfold scrape_url
    simp [hv, hs]
  · intro hv hs
    unfold scrape_url
    simp only [hv, Bool.true_eq_false, if_neg, ite_false, hs]
    cases hrp : env.renderPage url with
    | error e => simp [hrp]
    | ok soup =>
      cases hph : _parse_html soup with
      | error e => simp [hrp, hph]
      | ok doc => simp [hrp, hph]

theorem rate_limit_after_gates_before_fetch_witness :
    (scrape_url ⟨fun _ => ResolveResult.ok ["93.184.216.34"], publicClassifier,
        fun _ => Except.ok []⟩ defaultSecurityConfig ⟨1, []⟩ 5 6 "http://example.com").2.2 =
      [ScrapeEvent.rateLimitWait "example.com",
        ScrapeEvent.fetchPage "http://example.com"] := by
  have h := rate_limit_after_gates_before_fetch
    ⟨fun _ => ResolveResult.ok ["93.184.216.34"], publicClassifier, fun _ => Except.ok []⟩
    defaultSecurityConfig ⟨1, []⟩ 5 6 "http://example.com"
  exact (h.2.2 (by decide) (by decide)).1

theorem upsertEntry_find_other (d d2 : String) (h : d ≠ d2)
    (l : List (String × RLEntry)) (e : RLEntry) :
    (upsertEntry l d e).find? (fun p => p.1 == d2) = l.find? (fun p => p.1 == d2) := by
  have hb : (d == d2) = false := by simp [h]
  induction l with
  | nil => simp [upsertEntry, List.find?, hb]
  | cons p rest ih =>
    unfold upsertEntry
    by_cases hp : p.1 = d
    · rw [if_pos hp]
      simp [List.find?, hb, hp]
    · rw [if_neg hp]
      cases hq : (p.1 == d2) with
      | true => simp [List.find?, hq]
      | false => simp [List.find?, hq, ih]

/-- C10: the rate limiter keys its ledger by the exact netloc string
scrape_url extracts: updating one key never changes what any other string
key reads (so two netloc strings that differ at all obtain independent
timers), and the netloc keeps letter case, userinfo and an explicit default
port, so the four variants of example.com are four distinct keys. -/
theorem rate_limiter_keys_exact_netloc :
    (∀ (rl : RateLimiter) (d d2 : String) (t1 t2 : Int), d ≠ d2 →
      ((rl.wait_if_needed d t1 t2).1).lookup d2 = rl.lookup d2) ∧
    scrapeDomain "http://Example.com/" = "Example.com" ∧
    scrapeDomain "http://user@example.com/" = "user@example.com" ∧
    scrapeDomain "http://example.com:80/" = "example.com:80" ∧
    scrapeDomain "http://example.com/" = "example.com" ∧
    List.Pairwise (fun a b => a ≠ b)
      ["Example.com", "user@example.com", "example.com:80", "example.com"] := by
  refine ⟨?_, rfl, rfl, rfl, rfl, by decide⟩
  intro rl d d2 t1 t2 hne
  simp [RateLimiter.wait_if_needed, RateLimiter.lookup, upsertEntry_find_other d d2 hne]

theorem rate_limiter_keys_exact_netloc_witness :
    ((RateLimiter.wait_if_needed ⟨1, []⟩ "Example.com" 5 6).1).lookup "example.com" =
      (⟨1, []⟩ : RateLimiter).lookup "example.com" :=
  rate_limiter_keys_exact_netloc.1 ⟨1, []⟩ "Example.com" "example.com" 5 6 (by decide)

theorem tablesText_congr (d2 d : ScrapedDoc) (mt : Nat) (hmt : 0 < mt)
    (h : d2.tables.take mt = d.tables.take mt) : tablesText d2 mt = tablesText d mt := by
  unfold tablesText
  have hiff : d2.tables.isEmpty = d.tables.isEmpty := by
    cases h2 : d2.tables with
    | nil =>
      cases hd : d.tables with
      | nil => rfl
      | cons a l =>
        rw [h2, hd] at h
        cases mt with
        | zero => omega
        | succ m => simp at h
    | cons a l =>
      cases hd : d.tables with
      | nil =>
        rw [h2, hd] at h
        cases mt with
        | zero => omega
        | succ m => simp at h
      | cons b l2 => simp [h2, hd]
  rw [hiff, h]

/-- C7: for every document and query the analyzer context is built from
exactly the stated pieces: it contains the document title, the first
max_content_length characters of the text, the tables text (at most
max_tables tables, or the fixed no-tables marker), the description and
keywords metadata, the query and the answer-from-this-material instruction;
and it depends on the document through those pieces alone (any document
agreeing on them yields the identical context).  The positive-max_tables
hypothesis matches the configured value 3. -/
theorem analyze_context_from_exact_pieces (d : ScrapedDoc) (q : String)
    (mc mt : Nat) (hmt : 0 < mt) :
    strHasSub (buildContext d q mc mt) (titleStr d) ∧
    strHasSub (buildContext d q mc mt) (d.text.take mc) ∧
    strHasSub (buildContext d q mc mt) (tablesText d mt) ∧
    strHasSub (buildContext d q mc mt) d.description ∧
    strHasSub (buildContext d q mc mt) d.keywords ∧
    strHasSub (buildContext d q mc mt) q ∧
    strHasSub (buildContext d q mc mt)
      "Please provide a helpful and accurate response based on the content above." ∧
    (∀ d2 : ScrapedDoc, titleStr d2 = titleStr d → d2.text.take mc = d.text.take mc →
      d2.tables.take mt = d.tables.take mt → d2.description = d.description →
      d2.keywords = d.keywords → buildContext d2 q mc mt = buildContext d q mc mt) := by
  refine ⟨?_, ?_, ?_, ?_, ?_, ?_, ?_, ?_⟩
  · unfold buildContext
    iterate 11 apply strHasSub_left
    apply strHasSub_right
    exact strHasSub_refl _
  · unfold buildContext
    iterate 9 apply strHasSub_left
    apply strHasSub_right
    exact strHasSub_refl _
  · unfold buildContext
    iterate 7 apply strHasSub_left
    apply strHasSub_right
    exact strHasSub_refl _
  · unfold buildContext
    iterate 5 apply strHasSub_left
    apply strHasSub_right
    exact strHasSub_refl _
  · unfold buildContext
    iterate 3 apply strHasSub_left
    apply strHasSub_right
    exact strHasSub_refl _
  · unfold buildContext
    apply strHasSub_left
    apply strHasSub_right
    exact strHasSub_refl _
  · unfold buildContext
    apply strHasSub_right
    exact ⟨"\n        \n        ".data, "\n        ".data, by decide⟩
  · intro d2 ht htxt htab hde hkw
    unfold buildContext
    rw [ht, htxt, hde, hkw, tablesText_congr d2 d mt hmt htab]

theorem analyze_context_from_exact_pieces_witness :
    0 < 3 ∧ strHasSub (buildContext ⟨some "T", "body", [], "D", "K", ["t1"]⟩ "why?" 4 3)
      "why?" :=
  ⟨by decide, (analyze_context_from_exact_pieces ⟨some "T", "body", [], "D", "K", ["t1"]⟩
    "why?" 4 3 (by decide)).2.2.2.2.2.1⟩

/-- C8: when the analysis call fails (analyze_content raises), process_query
leaves the session state — the cached Scraped Document and the whole chat
history — exactly as it was: no turn appended, none removed, the document
intact; only the failing turn is rejected, with its error shown. -/
theorem analysis_failure_preserves_state
    (analyzeFn : ScrapedDoc → String → Except String String) (cfg : SecurityConfig)
    (st : SessionState) (q : String) (d : ScrapedDoc) (e : String)
    (hc : st.content = some d) (hs : st.scraper = true)
    (hv : (validate_query cfg q).1 = true) (hf : analyzeFn d q = Except.error e) :
    (process_query analyzeFn cfg st q).1 = st ∧
    (process_query analyzeFn cfg st q).2 = some ("Analysis Error: " ++ e) := by
  unfold process_query
  rw [hc]
  simp [hv, hs, hf]

theorem analysis_failure_preserves_state_witness :
    (process_query (fun _ _ => Except.error "boom") defaultSecurityConfig
        ⟨some ⟨some "T", "", [], "", "", []⟩, [("q0", "r0")], true⟩ "why?").1 =
      ⟨some ⟨some "T", "", [], "", "", []⟩, [("q0", "r0")], true⟩ :=
  (analysis_failure_preserves_state (fun _ _ => Except.error "boom")
    defaultSecurityConfig ⟨some ⟨some "T", "", [], "", "", []⟩, [("q0", "r0")], true⟩
    "why?" ⟨some "T", "", [], "", "", []⟩ "boom" rfl rfl (by decide) rfl).1

/-- C2: _parse_html is not total over parseable HTML: a document holding a
meta element named description that lacks a content attribute makes the
subscript raise KeyError("content") instead of yielding an empty field,
while a document with the elements missing altogether does degrade to the
empty-field Document (empty title, text, metadata and table list). -/
theorem parse_html_meta_without_content_raises :
    _parse_html [HNode.elem "meta" [("name", "description")] []] =
      Except.error "\x27content\x27" ∧
    _parse_html [] = Except.ok ⟨some "", "", [], "", "", []⟩ := ⟨rfl, rfl⟩

theorem data_wrap_blocked :
    ("Failed to analyze content: Content was blocked: ").data =
      ("Failed to analyze content: ").data ++ ("Content was blocked: ").data := rfl

theorem surfacedKind_wrapped_blocked (r : String) :
    surfacedKind ("Failed to analyze content: " ++ ("Content was blocked: " ++ r)) =
      ErrKind.blockedSafety := by
  have hne1 : "Failed to analyze content: " ++ ("Content was blocked: " ++ r) ≠
      "Your query was blocked by content safety filters" :=
    append_ne_of_not_isPrefixOf _ _ _ (by decide)
  have hne2 : "Failed to analyze content: " ++ ("Content was blocked: " ++ r) ≠
      "Response generation was stopped due to content safety" :=
    append_ne_of_not_isPrefixOf _ _ _ (by decide)
  have hne3 : "Failed to analyze content: " ++ ("Content was blocked: " ++ r) ≠
      "Failed to analyze content: Empty response from Gemini API" := by
    intro heq
    have hcl : ("Content was blocked: " ++ r) = "Empty response from Gemini API" :=
      strAppend_cancel_left "Failed to analyze content: " _ _ (by rw [heq]; rfl)
    exact append_ne_of_not_isPrefixOf "Content was blocked: " r _ (by decide) hcl
  have hpre : ("Failed to analyze content: Content was blocked: ").data.isPrefixOf
      ("Failed to analyze content: " ++ ("Content was blocked: " ++ r)).data = true := by
    have hd : ("Failed to analyze content: " ++ ("Content was blocked: " ++ r)).data =
        ("Failed to analyze content: Content was blocked: ").data ++ r.data := by
      rw [data_wrap_blocked, String.data_append, String.data_append, List.append_assoc]
    rw [hd]
    exact isPrefixOf_append_self _ _
  unfold surfacedKind
  rw [if_neg hne1, if_neg hne2, if_neg hne3, if_pos hpre]

theorem surfacedKind_wrapped_other (m0 : String)
    (h1 : m0 ≠ "Empty response from Gemini API")
    (h2 : ∀ r, m0 ≠ "Content was blocked: " ++ r) :
    surfacedKind ("Failed to analyze content: " ++ m0) = ErrKind.providerFailure := by
  have hne1 : "Failed to analyze content: " ++ m0 ≠
      "Your query was blocked by content safety filters" :=
    append_ne_of_not_isPrefixOf _ _ _ (by decide)
  have hne2 : "Failed to analyze content: " ++ m0 ≠
      "Response generation was stopped due to content safety" :=
    append_ne_of_not_isPrefixOf _ _ _ (by decide)
  have hne3 : "Failed to analyze content: " ++ m0 ≠
      "Failed to analyze content: Empty response from Gemini API" := by
    intro heq
    exact h1 (strAppend_cancel_left "Failed to analyze content: " _ _ (by rw [heq]; rfl))
  have hpre : ("Failed to analyze content: Content was blocked: ").data.isPrefixOf
      ("Failed to analyze content: " ++ m0).data = false := by
    cases hb : ("Failed to analyze content: Content was blocked: ").data.isPrefixOf
        ("Failed to analyze content: " ++ m0).data with
    | false => rfl
    | true =>
      exfalso
      rw [data_wrap_blocked, String.data_append, isPrefixOf_append_cancel] at hb
      obtain ⟨r, hr⟩ := eq_append_of_isPrefixOf _ _ hb
      exact h2 r hr
  unfold surfacedKind
  rw [if_neg hne1, if_neg hne2, if_neg hne3,
    if_neg (by intro hcon; rw [hpre] at hcon; exact Bool.noConfusion hcon)]

/-- C3 counterexample: two failing calls of different kinds — an
empty-response and a provider failure whose cause text happens to be "Empty
response from Gemini API" — surface the identical error, because the
ContentAnalysisError the try body raises for an empty response is caught by
the function's own final except clause and re-wrapped in the
provider-failure message; so the surfaced error does not let the caller
distinguish the four kinds. -/
theorem analyze_error_kinds_collide :
    outcomeKind (ProviderOutcome.ok none "") = some ErrKind.emptyResponse ∧
    outcomeKind (ProviderOutcome.otherError "Empty response from Gemini API") =
      some ErrKind.providerFailure ∧
    analyze (fun _ => ProviderOutcome.ok none "") ⟨some "T", "x", [], "", "", []⟩ "q" =
      analyze (fun _ => ProviderOutcome.otherError "Empty response from Gemini API")
        ⟨some "T", "x", [], "", "", []⟩ "q" ∧
    analyze (fun _ => ProviderOutcome.ok none "") ⟨some "T", "x", [], "", "", []⟩ "q" =
      Except.error "Failed to analyze content: Empty response from Gemini API" :=
  ⟨rfl, rfl, rfl, rfl⟩

/-- C3 (amended): every failing analyze call surfaces a ContentAnalysisError
whose message determines the kind (decoded by surfacedKind), except that the
blocked-by-feedback and empty-response kinds are wrapped in the
provider-failure format "Failed to analyze content: ...", so the guarantee
requires that a provider-failure cause string is not itself one of those two
wrapped inner messages. -/
theorem analyze_error_kind_recoverable (provider : String → ProviderOutcome)
    (d : ScrapedDoc) (q : String) (mc mt : Nat) (k : ErrKind)
    (hk : outcomeKind (provider (buildContext d q mc mt)) = some k)
    (hg : causeAvoidsInnerMessages (provider (buildContext d q mc mt))) :
    ∃ m, analyze provider d q mc mt = Except.error m ∧ surfacedKind m = k := by
  unfold analyze
  generalize hgen : provider (buildContext d q mc mt) = o at hk hg ⊢
  cases o with
  | blockedPrompt m0 =>
    simp only [outcomeKind, Option.some.injEq] at hk
    subst hk
    exact ⟨_, rfl, by decide⟩
  | stopCandidate m0 =>
    simp only [outcomeKind, Option.some.injEq] at hk
    subst hk
    exact ⟨_, rfl, by decide⟩
  | otherError m0 =>
    simp only [outcomeKind, Option.some.injEq] at hk
    subst hk
    simp only [causeAvoidsInnerMessages] at hg
    exact ⟨_, rfl, surfacedKind_wrapped_other m0 hg.1 hg.2⟩
  | ok br t =>
    cases br with
    | some r =>
      simp only [outcomeKind, Option.some.injEq] at hk
      subst hk
      exact ⟨_, rfl, surfacedKind_wrapped_blocked r⟩
    | none =>
      by_cases ht : t = ""
      · subst ht
        simp only [outcomeKind, if_pos rfl, Option.some.injEq, reduceIte] at hk
        subst hk
        exact ⟨_, rfl, by decide⟩
      · simp only [outcomeKind, if_neg ht] at hk
        exact Option.noConfusion hk

theorem analyze_error_kind_recoverable_witness :
    ∃ m, analyze (fun _ => ProviderOutcome.stopCandidate "halt")
        ⟨some "T", "x", [], "", "", []⟩ "q" 2000 3 = Except.error m ∧
      surfacedKind m = ErrKind.generationStopped :=
  analyze_error_kind_recoverable (fun _ => ProviderOutcome.stopCandidate "halt")
    ⟨some "T", "x", [], "", "", []⟩ "q" 2000 3 ErrKind.generationStopped rfl True.intro

end GeminiScraper
